import Mathlib

/-!
Verification development for the `youtube-archiver` orchestration layer.

The Python sources (`config.py`, `downloader.py`, `main.py`) are shallowly
embedded below: pure string manipulation becomes Lean functions on `String`,
the external collaborators (yt-dlp listing, metadata probing, byte fetching)
become oracle parameters, exceptions become `Except`/`Option`, and `async`
control flow is modelled by explicit event traces plus a small-step
scheduler for the semaphore discipline of `process_channel`.
-/

namespace YTArchiver

/-! ## String helpers mirroring the Python string operations -/

/-- Boolean list-prefix test (used to express Python's `startswith`,
`endswith` and `in` on `str`). -/
def isPre : List Char → List Char → Bool
  | [], _ => true
  | _ :: _, [] => false
  | a :: as, b :: bs => a == b && isPre as bs

/-- Boolean substring test on character lists, mirroring Python's `in`
operator on `str` (the empty pattern is contained in every string). -/
def hasSubList (pat : List Char) : List Char → Bool
  | [] => isPre pat []
  | c :: t => isPre pat (c :: t) || hasSubList pat t

/-- `pat in s` for Python strings. -/
def strContains (s pat : String) : Bool := hasSubList pat.data s.data

/-- `s.startswith(pat)` for Python strings. -/
def startsWithStr (s pat : String) : Bool := isPre pat.data s.data

/-- `s.endswith(pat)` for Python strings. -/
def endsWithStr (s pat : String) : Bool := isPre pat.data.reverse s.data.reverse

/-- `s.rstrip("/")` for Python strings: drop every trailing `'/'`. -/
def rstripSlash (s : String) : String :=
  String.mk ((s.data.reverse.dropWhile (fun c => c = '/')).reverse)

/-- `s.strip()` for Python strings: drop surrounding whitespace (modelled
over the character list so that it evaluates by kernel reduction). -/
def stripStr (s : String) : String :=
  String.mk (((s.data.dropWhile Char.isWhitespace).reverse.dropWhile
    Char.isWhitespace).reverse)

/-! ## `config.py`: the channel URL normalizer

`get_channel_url` in `config.py` has no `return` on the final fall-through
path, so Python returns `None` there; the embedding therefore returns
`Option String`. -/

/-- Embedding of `config.get_channel_url`.  Rules in source order: trim,
full-URL branch (watch URLs unchanged, otherwise ensure `"/videos"`),
channel-ID branch (`UC` ...), handle branch (contains `"@"`), implicit
`None` fall-through. -/
def get_channel_url (channel_identifier : String) : Option String :=
  let ci := stripStr channel_identifier
  if startsWithStr ci "http://" || startsWithStr ci "https://" then
    if strContains ci "youtube.com/watch?v=" then some ci
    else if strContains ci "/videos" then some ci
    else some (rstripSlash ci ++ "/videos")
  else if startsWithStr ci "UC" then
    some ("https://www.youtube.com/channel/" ++ ci ++ "/videos")
  else if strContains ci "@" then
    some ("https://www.youtube.com/" ++ rstripSlash ci ++ "/videos")
  else
    none

/-! ## `downloader.py`: events, the retry executor and the metadata gate

The external fetcher is an oracle `oc : Nat → Option String` giving, for
each 0-based attempt index, `none` when the yt-dlp call returns normally
and `some reason` when it raises an exception with message `reason`.
Observable side effects (fetch invocations, log lines, sleeps) are
collected in an event trace.  Destination-directory and cookie plumbing
is elided: it is passed through to yt-dlp unchanged and does not affect
control flow. -/

/-- Retry ceiling `RETRY_LIMIT = 3` of `downloader.py`. -/
def RETRY_LIMIT : Nat := 3

/-- Observable events of a run. -/
inductive Ev where
  | probeCall (url : String)
  | fetchCall (url : String) (attempt : Nat)
  | warnLog (url : String) (attempt : Nat) (reason : String)
  | sleepCall (secs : Int)
  | skipLog (msg : String)
  | errorLog (msg : String)
  deriving DecidableEq, Repr

/-- Result of `download_video`: normal return, or a raised
`DownloadError` carrying its message. -/
inductive DLResult where
  | success
  | fatal (msg : String)
  deriving DecidableEq, Repr

/-- The `if rate_limit: await asyncio.sleep(rate_limit)` statement after a
successful fetch: Python truthiness sleeps only when the delay is set and
nonzero. -/
def sleepEvts (rate_limit : Option Int) : List Ev :=
  match rate_limit with
  | some r => if r = 0 then [] else [Ev.sleepCall r]
  | none => []

/-- The `while tries < RETRY_LIMIT` loop body of
`downloader.download_video`, with `fuel = RETRY_LIMIT - tries` making the
recursion structural.  On success: optional sleep, then return.  On an
exception: increment `tries`, log a warning with the attempt number and
the reason, and raise `DownloadError` once `tries >= RETRY_LIMIT`. -/
def downloadVideoLoop (video_url : String) (rate_limit : Option Int)
    (oc : Nat → Option String) : Nat → Nat → List Ev × DLResult
  | 0, _ => ([], DLResult.success)
  | fuel + 1, tries =>
    match oc tries with
    | none =>
      (Ev.fetchCall video_url (tries + 1) :: sleepEvts rate_limit, DLResult.success)
    | some reason =>
      if tries + 1 ≥ RETRY_LIMIT then
        ([Ev.fetchCall video_url (tries + 1), Ev.warnLog video_url (tries + 1) reason],
         DLResult.fatal ("Failed to download " ++ video_url ++ " after "
           ++ toString RETRY_LIMIT ++ " retries."))
      else
        let rest := downloadVideoLoop video_url rate_limit oc fuel (tries + 1)
        (Ev.fetchCall video_url (tries + 1) :: Ev.warnLog video_url (tries + 1) reason :: rest.1,
         rest.2)

/-- Embedding of `downloader.download_video` (the Retry Executor): run the
retry loop from `tries = 0`. -/
def download_video (video_url : String) (rate_limit : Option Int)
    (oc : Nat → Option String) : List Ev × DLResult :=
  downloadVideoLoop video_url rate_limit oc RETRY_LIMIT 0

/-- The attempt numbers of fetch invocations for `url`, in trace order. -/
def fetchAttemptNums (url : String) (evts : List Ev) : List Nat :=
  evts.filterMap (fun e => match e with
    | Ev.fetchCall u n => if u = url then some n else none
    | _ => none)

/-- Embedding of `downloader.fetch_video_metadata` (the Metadata Gate's
probe): `_extract_metadata` runs under a `try`/`except` that turns every
exception into `None`, so the probe oracle directly yields optional
metadata (the metadata dict is abstracted to a `Nat`). -/
def fetch_video_metadata (probeOc : String → Option Nat) (url : String) : Option Nat :=
  probeOc url

/-- Terminal outcome of one item. -/
inductive ItemOutcome where
  | success
  | skipped
  | fatal
  deriving DecidableEq, Repr

/-- Embedding of the `sem_download` closure inside
`downloader.download_videos_in_channel`: probe first; on `None` log the
skip line and return without ever calling `download_video`; otherwise run
the retry executor, catching `DownloadError` and logging its message.
The function always returns (no exception escapes it). -/
def sem_download (probeOc : String → Option Nat) (fetchOc : String → Nat → Option String)
    (rate_limit : Option Int) (video_url : String) : List Ev × ItemOutcome :=
  match fetch_video_metadata probeOc video_url with
  | none =>
    ([Ev.probeCall video_url,
      Ev.skipLog ("Skipping download (metadata fetch failed): " ++ video_url)],
     ItemOutcome.skipped)
  | some _ =>
    let r := download_video video_url rate_limit (fetchOc video_url)
    match r.2 with
    | DLResult.success => (Ev.probeCall video_url :: r.1, ItemOutcome.success)
    | DLResult.fatal msg =>
      (Ev.probeCall video_url :: r.1 ++ [Ev.errorLog msg], ItemOutcome.fatal)

/-- The `tqdm` progress bar of `download_videos_in_channel`: `total` is
fixed when the bar is created, `completed` is bumped by the
`add_done_callback` of each item task. -/
structure PBar where
  total : Nat
  completed : Nat
  deriving DecidableEq, Repr

/-- Per-item loop of `download_videos_in_channel`, threading the bar's
`completed` count: each finished item task fires its done-callback, which
increments the bar by one.  Returns the event trace, the per-item terminal
outcomes, and the successive `completed` values (one per callback). -/
def channelLoop (probeOc : String → Option Nat) (fetchOc : String → Nat → Option String)
    (rate_limit : Option Int) : List String → Nat → List Ev × (List ItemOutcome × List Nat)
  | [], _ => ([], ([], []))
  | v :: vs, completed =>
    let r := sem_download probeOc fetchOc rate_limit v
    let rest := channelLoop probeOc fetchOc rate_limit vs (completed + 1)
    (r.1 ++ rest.1, (r.2 :: rest.2.1, (completed + 1) :: rest.2.2))

/-- Embedding of `downloader.download_videos_in_channel`: a bar seeded with
`total = len(channel_videos)` and `completed = 0` is created for this one
channel, then every video runs through `sem_download` with a done-callback
updating the bar.  The returned `List PBar` is the sequence of bar states,
the creation state first.  (The semaphore discipline of this function,
which wraps the whole item body, is not in dispute and is not modelled
here; the scheduler model below covers `process_channel`.) -/
def download_videos_in_channel (probeOc : String → Option Nat)
    (fetchOc : String → Nat → Option String) (channel_videos : List String)
    (rate_limit : Option Int) : List Ev × (List ItemOutcome × List PBar) :=
  let r := channelLoop probeOc fetchOc rate_limit channel_videos 0
  (r.1, (r.2.1,
    PBar.mk channel_videos.length 0
      :: r.2.2.map (fun c => PBar.mk channel_videos.length c)))

/-! ## `main.py`: the wired entry path

`list_videos_in_channel` calls yt-dlp with no exception handling, so a
listing failure raises out of it; the listing oracle returns
`Except String (List (Option String))`: an error message, or the
`entries` list in which each entry either has an `"id"` (`some id`) or
not (`none`). -/

/-- Embedding of `main.list_videos_in_channel`: watch URLs short-circuit
to a single-item list; otherwise the yt-dlp listing runs (and may raise),
and each entry with an id becomes a watch URL. -/
def list_videos_in_channel (listOc : String → Except String (List (Option String)))
    (channel_url : String) : Except String (List String) :=
  if strContains channel_url "youtube.com/watch?v=" then Except.ok [channel_url]
  else
    match listOc channel_url with
    | Except.error e => Except.error e
    | Except.ok entries =>
      Except.ok (entries.filterMap (fun entry =>
        match entry with
        | some vid => some ("https://www.youtube.com/watch?v=" ++ vid)
        | none => none))

/-- Embedding of `main.download_video_with_retries`: wraps the retry
executor, catching `DownloadError` (and any other exception) and logging
an error line — per-item failures never propagate out of it. -/
def download_video_with_retries (fetchOc : String → Nat → Option String)
    (rate_limit : Option Int) (video_url : String) : List Ev × ItemOutcome :=
  let r := download_video video_url rate_limit (fetchOc video_url)
  match r.2 with
  | DLResult.success => (r.1, ItemOutcome.success)
  | DLResult.fatal msg =>
    (r.1 ++ [Ev.errorLog ("Failed to download video " ++ video_url
        ++ " after retries: " ++ msg)],
     ItemOutcome.fatal)

/-- The per-item submission loop of `main.process_channel`: one
`download_video_with_retries` task per listed URL (no probe on this path);
traces are concatenated, one terminal outcome per item.  The semaphore
around `asyncio.create_task` has no effect on which tasks run and is
modelled by the scheduler below. -/
def runItems (fetchOc : String → Nat → Option String) (rate_limit : Option Int) :
    List String → List Ev × List ItemOutcome
  | [] => ([], [])
  | v :: vs =>
    let r := download_video_with_retries fetchOc rate_limit v
    let rest := runItems fetchOc rate_limit vs
    (r.1 ++ rest.1, r.2 :: rest.2)

/-- Embedding of `main.process_channel`: normalize the configured
identifier, list the channel (a listing exception propagates — there is no
handler), then submit one task per video URL.  When `get_channel_url`
falls through and returns `None`, the membership test inside
`list_videos_in_channel` raises a `TypeError` in Python, modelled as an
error. -/
def process_channel (listOc : String → Except String (List (Option String)))
    (fetchOc : String → Nat → Option String) (rate_limit : Option Int)
    (channel_url_cfg : String) : Except String (List Ev × List ItemOutcome) :=
  match get_channel_url channel_url_cfg with
  | none => Except.error "TypeError: argument of type NoneType is not iterable"
  | some channel_url =>
    match list_videos_in_channel listOc channel_url with
    | Except.error e => Except.error e
    | Except.ok video_urls => Except.ok (runItems fetchOc rate_limit video_urls)

/-- The channel gather of `main.main_async`: one `process_channel` task
per configured channel; `asyncio.gather` re-raises the first exception of
any channel task, aborting the run. -/
def runChannels (listOc : String → Except String (List (Option String)))
    (fetchOc : String → Nat → Option String) (rate_limit : Option Int) :
    List String → Except String (List Ev × List ItemOutcome)
  | [] => Except.ok ([], [])
  | c :: cs =>
    match process_channel listOc fetchOc rate_limit c with
    | Except.error e => Except.error e
    | Except.ok r =>
      match runChannels listOc fetchOc rate_limit cs with
      | Except.error e => Except.error e
      | Except.ok rest => Except.ok (r.1 ++ rest.1, r.2 ++ rest.2)

/-- Embedding of `main.main_async` (the wired entry path): process every
configured channel URL; a raising channel task propagates out of the
gather and aborts the run. -/
def main_async (listOc : String → Except String (List (Option String)))
    (fetchOc : String → Nat → Option String) (channels : List String)
    (rate_limit : Option Int) : Except String (List Ev × List ItemOutcome) :=
  runChannels listOc fetchOc rate_limit channels

/-- The `--rate-limit` conversion in `main.main`:
`args.rate_limit if args.rate_limit > 0 else None`. -/
def cliRateLimit (rate_limit : Int) : Option Int :=
  if rate_limit > 0 then some rate_limit else none

/-! ## The admission-gate scheduler of `process_channel`

`process_channel` runs, for each listed URL,
`async with semaphore: task = asyncio.create_task(...)` — the slot is
acquired, the task is *created* (not awaited), and the slot is released
when the `async with` block exits, before the created task ever runs.
The block contains no yield point (acquiring an available semaphore and
`create_task` do not suspend), so one loop iteration is one atomic
`submit` step.  Created tasks start running at the `await asyncio.gather`
and never touch the semaphore themselves. -/

/-- Scheduler state: available semaphore slots, tasks created but not yet
started, items not yet submitted by the parent loop, and item units whose
fetch sequence is in flight (started, not yet terminal). -/
structure SchedState where
  semAvail : Nat
  pending : Nat
  toSubmit : Nat
  inFlight : Nat
  deriving DecidableEq, Repr

/-- Small-step transitions of the `process_channel` submission pattern:
`submit` is one parent loop iteration (acquire slot, `create_task`,
release slot — net semaphore effect zero); `start` begins a created task's
fetch sequence (no slot needed: the task body never acquires the
semaphore); `finish` ends an in-flight sequence. -/
inductive PCStep : SchedState → SchedState → Prop where
  | submit (s : SchedState) : 1 ≤ s.semAvail → 1 ≤ s.toSubmit →
      PCStep s { s with toSubmit := s.toSubmit - 1, pending := s.pending + 1 }
  | start (s : SchedState) : 1 ≤ s.pending →
      PCStep s { s with pending := s.pending - 1, inFlight := s.inFlight + 1 }
  | finish (s : SchedState) : 1 ≤ s.inFlight →
      PCStep s { s with inFlight := s.inFlight - 1 }

/-- Initial scheduler state for a channel with `n` listed items under a
semaphore of size `maxConcurrent`. -/
def initSched (maxConcurrent n : Nat) : SchedState :=
  { semAvail := maxConcurrent, pending := 0, toSubmit := n, inFlight := 0 }

/-- Reachability under the scheduler steps. -/
def SchedReach : SchedState → SchedState → Prop :=
  Relation.ReflTransGen PCStep

end YTArchiver

namespace YTArchiver

/-! ## Theorems about the normalizer (C7, C8, C9) -/

theorem isPre_append_self (l t : List Char) : isPre l (l ++ t) = true := by
  induction l with
  | nil => rfl
  | cons c cs ih => simp [isPre, ih]

theorem data_append (a b : String) : (a ++ b).data = a.data ++ b.data := rfl

theorem endsWithStr_append (a p : String) : endsWithStr (a ++ p) p = true := by
  unfold endsWithStr
  rw [data_append, List.reverse_append]
  exact isPre_append_self _ _

/-- C8: the five table inputs of the spec map to the stated outputs. -/
theorem normalizer_table_examples :
    get_channel_url "https://www.youtube.com/c/Example"
      = some "https://www.youtube.com/c/Example/videos"
  ∧ get_channel_url "https://www.youtube.com/c/Example/videos"
      = some "https://www.youtube.com/c/Example/videos"
  ∧ get_channel_url "UC1234567890"
      = some "https://www.youtube.com/channel/UC1234567890/videos"
  ∧ get_channel_url "@examplehandle"
      = some "https://www.youtube.com/@examplehandle/videos"
  ∧ get_channel_url "https://www.youtube.com/watch?v=abc123"
      = some "https://www.youtube.com/watch?v=abc123" := by
  refine ⟨?_, ?_, ?_, ?_, ?_⟩ <;> rfl

/-- C7 counterexample: the identifier
`"https://www.youtube.com/c/Example/videos/"` starts with a URL scheme and
is not a watch URL, yet the normalizer returns it unchanged (the code tests
`"/videos" not in url`, a substring test, not an ends-with test), and the
output does not end with the `"/videos"` suffix. -/
theorem normalizer_suffix_counterexample :
    startsWithStr (stripStr "https://www.youtube.com/c/Example/videos/") "https://" = true
  ∧ strContains (stripStr "https://www.youtube.com/c/Example/videos/")
      "youtube.com/watch?v=" = false
  ∧ get_channel_url "https://www.youtube.com/c/Example/videos/"
      = some "https://www.youtube.com/c/Example/videos/"
  ∧ endsWithStr "https://www.youtube.com/c/Example/videos/" "/videos" = false :=
  ⟨rfl, rfl, rfl, rfl⟩

/-- C7 (amended): for every identifier that, after trimming, starts with a
URL scheme, is not a watch URL, and does not already contain `"/videos"`
as a substring, the normalizer appends the suffix (after stripping
trailing slashes) and the output ends with `"/videos"`; identifiers that
already contain `"/videos"` anywhere are returned unchanged. -/
theorem normalizer_appends_suffix (s : String)
    (hscheme : startsWithStr (stripStr s) "http://" = true
      ∨ startsWithStr (stripStr s) "https://" = true)
    (hwatch : strContains (stripStr s) "youtube.com/watch?v=" = false)
    (hvid : strContains (stripStr s) "/videos" = false) :
    get_channel_url s = some (rstripSlash (stripStr s) ++ "/videos")
  ∧ endsWithStr (rstripSlash (stripStr s) ++ "/videos") "/videos" = true := by
  refine ⟨?_, endsWithStr_append _ _⟩
  unfold get_channel_url
  rcases hscheme with h | h <;> simp [h, hwatch, hvid]

/-- C7 witness: the amended theorem applied to a concrete identifier. -/
theorem normalizer_appends_suffix_witness :
    get_channel_url "https://www.youtube.com/c/Example"
      = some (rstripSlash (stripStr "https://www.youtube.com/c/Example") ++ "/videos")
  ∧ endsWithStr (rstripSlash (stripStr "https://www.youtube.com/c/Example") ++ "/videos")
      "/videos" = true :=
  normalizer_appends_suffix "https://www.youtube.com/c/Example" (Or.inr rfl) rfl rfl

/-- C9: an identifier that, after trimming, matches none of the rules (no
URL scheme, no `"UC"` start, no `"@"`) makes `get_channel_url` fall
through every branch: the function returns no value (`none`), neither a
fallback URL nor an error. -/
theorem normalizer_fallthrough_none (s : String)
    (h1 : startsWithStr (stripStr s) "http://" = false)
    (h2 : startsWithStr (stripStr s) "https://" = false)
    (h3 : startsWithStr (stripStr s) "UC" = false)
    (h4 : strContains (stripStr s) "@" = false) :
    get_channel_url s = none := by
  unfold get_channel_url
  simp [h1, h2, h3, h4]

/-- C9 witness: the fall-through theorem applied to a concrete identifier. -/
theorem normalizer_fallthrough_none_witness :
    get_channel_url "Example" = none :=
  normalizer_fallthrough_none "Example" rfl rfl rfl rfl

end YTArchiver

namespace YTArchiver

/-! ## Theorems about the retry executor (C2) and the rate limiter (C10) -/

theorem dv_char_s0 (url : String) (rl : Option Int) (oc : Nat → Option String)
    (h0 : oc 0 = none) :
    download_video url rl oc
      = (Ev.fetchCall url 1 :: sleepEvts rl, DLResult.success) := by
  simp [download_video, downloadVideoLoop, RETRY_LIMIT, h0]

theorem dv_char_s1 (url : String) (rl : Option Int) (oc : Nat → Option String)
    (r0 : String) (h0 : oc 0 = some r0) (h1 : oc 1 = none) :
    download_video url rl oc
      = (Ev.fetchCall url 1 :: Ev.warnLog url 1 r0 :: Ev.fetchCall url 2 :: sleepEvts rl,
         DLResult.success) := by
  simp [download_video, downloadVideoLoop, RETRY_LIMIT, h0, h1]

theorem dv_char_s2 (url : String) (rl : Option Int) (oc : Nat → Option String)
    (r0 r1 : String) (h0 : oc 0 = some r0) (h1 : oc 1 = some r1) (h2 : oc 2 = none) :
    download_video url rl oc
      = (Ev.fetchCall url 1 :: Ev.warnLog url 1 r0 :: Ev.fetchCall url 2
          :: Ev.warnLog url 2 r1 :: Ev.fetchCall url 3 :: sleepEvts rl,
         DLResult.success) := by
  simp [download_video, downloadVideoLoop, RETRY_LIMIT, h0, h1, h2]

theorem dv_char_fail (url : String) (rl : Option Int) (oc : Nat → Option String)
    (r0 r1 r2 : String) (h0 : oc 0 = some r0) (h1 : oc 1 = some r1) (h2 : oc 2 = some r2) :
    download_video url rl oc
      = ([Ev.fetchCall url 1, Ev.warnLog url 1 r0, Ev.fetchCall url 2,
          Ev.warnLog url 2 r1, Ev.fetchCall url 3, Ev.warnLog url 3 r2],
         DLResult.fatal ("Failed to download " ++ url ++ " after "
           ++ toString RETRY_LIMIT ++ " retries.")) := by
  simp [download_video, downloadVideoLoop, RETRY_LIMIT, h0, h1, h2]

theorem fetchAttemptNums_sleepEvts (url : String) (rl : Option Int) :
    fetchAttemptNums url (sleepEvts rl) = [] := by
  rcases rl with _ | r
  · rfl
  · by_cases hr : r = 0 <;> simp [sleepEvts, fetchAttemptNums, hr]

theorem fetchAttemptNums_nil (url : String) : fetchAttemptNums url [] = [] := rfl

theorem fetchAttemptNums_fetch_cons (url : String) (n : Nat) (t : List Ev) :
    fetchAttemptNums url (Ev.fetchCall url n :: t) = n :: fetchAttemptNums url t := by
  simp [fetchAttemptNums]

theorem fetchAttemptNums_warn_cons (url u : String) (n : Nat) (r : String) (t : List Ev) :
    fetchAttemptNums url (Ev.warnLog u n r :: t) = fetchAttemptNums url t := by
  simp [fetchAttemptNums]

/-- C2: `download_video` invokes the fetch at most `RETRY_LIMIT = 3`
times, and the attempts it records are numbered `1, 2, ...` in trace order
(attempt `n+1` starts only after attempt `n` finished); it returns
normally if and only if one of the first three attempts succeeds, and when
the first success is attempt `i+1` it stops there; it raises
`DownloadError` with a message naming the URL and the attempt count
exactly when all three attempts fail; every failed attempt is logged as a
warning carrying the attempt number and the underlying reason. -/
theorem download_video_retry_spec (url : String) (rl : Option Int)
    (oc : Nat → Option String) :
    fetchAttemptNums url (download_video url rl oc).1
      = List.range' 1 (fetchAttemptNums url (download_video url rl oc).1).length
  ∧ (fetchAttemptNums url (download_video url rl oc).1).length ≤ RETRY_LIMIT
  ∧ ((download_video url rl oc).2 = DLResult.success
      ↔ ∃ i, i < RETRY_LIMIT ∧ oc i = none)
  ∧ ((∀ i, i < RETRY_LIMIT → oc i ≠ none) →
      (download_video url rl oc).2
        = DLResult.fatal ("Failed to download " ++ url ++ " after "
            ++ toString RETRY_LIMIT ++ " retries."))
  ∧ (∀ i reason, i < RETRY_LIMIT → (∀ j, j < i → oc j ≠ none) →
      oc i = some reason → Ev.warnLog url (i + 1) reason ∈ (download_video url rl oc).1)
  ∧ (∀ i, i < RETRY_LIMIT → (∀ j, j < i → oc j ≠ none) → oc i = none →
      (fetchAttemptNums url (download_video url rl oc).1).length = i + 1) := by
  have hlt : ∀ i : Nat, i < RETRY_LIMIT ↔ (i = 0 ∨ i = 1 ∨ i = 2) := by
    intro i; unfold RETRY_LIMIT; omega
  rcases h0 : oc 0 with _ | r0
  · rw [dv_char_s0 url rl oc h0]
    simp only [fetchAttemptNums_fetch_cons, fetchAttemptNums_sleepEvts]
    refine ⟨by decide, by decide, ?_, ?_, ?_, ?_⟩
    · exact ⟨fun _ => ⟨0, by decide, h0⟩, fun _ => by trivial⟩
    · intro hall; exact absurd h0 (hall 0 (by decide))
    · intro i reason hi hprev hoc
      rcases (hlt i).1 hi with rfl | rfl | rfl
      · rw [h0] at hoc; exact absurd hoc (by simp)
      · exact absurd h0 (hprev 0 (by decide))
      · exact absurd h0 (hprev 0 (by decide))
    · intro i hi hprev _
      rcases (hlt i).1 hi with rfl | rfl | rfl
      · rfl
      · exact absurd h0 (hprev 0 (by decide))
      · exact absurd h0 (hprev 0 (by decide))
  · rcases h1 : oc 1 with _ | r1
    · rw [dv_char_s1 url rl oc r0 h0 h1]
      simp only [fetchAttemptNums_fetch_cons, fetchAttemptNums_warn_cons,
        fetchAttemptNums_sleepEvts]
      refine ⟨by decide, by decide, ?_, ?_, ?_, ?_⟩
      · exact ⟨fun _ => ⟨1, by decide, h1⟩, fun _ => by trivial⟩
      · intro hall; exact absurd h1 (hall 1 (by decide))
      · intro i reason hi hprev hoc
        rcases (hlt i).1 hi with rfl | rfl | rfl
        · rw [h0] at hoc; injection hoc with h; subst h; simp
        · rw [h1] at hoc; exact absurd hoc (by simp)
        · exact absurd h1 (hprev 1 (by decide))
      · intro i hi hprev hoc
        rcases (hlt i).1 hi with rfl | rfl | rfl
        · rw [h0] at hoc; exact absurd hoc (by simp)
        · rfl
        · exact absurd h1 (hprev 1 (by decide))
    · rcases h2 : oc 2 with _ | r2
      · rw [dv_char_s2 url rl oc r0 r1 h0 h1 h2]
        simp only [fetchAttemptNums_fetch_cons, fetchAttemptNums_warn_cons,
          fetchAttemptNums_sleepEvts]
        refine ⟨by decide, by decide, ?_, ?_, ?_, ?_⟩
        · exact ⟨fun _ => ⟨2, by decide, h2⟩, fun _ => by trivial⟩
        · intro hall; exact absurd h2 (hall 2 (by decide))
        · intro i reason hi hprev hoc
          rcases (hlt i).1 hi with rfl | rfl | rfl
          · rw [h0] at hoc; injection hoc with h; subst h; simp
          · rw [h1] at hoc; injection hoc with h; subst h; simp
          · rw [h2] at hoc; exact absurd hoc (by simp)
        · intro i hi hprev hoc
          rcases (hlt i).1 hi with rfl | rfl | rfl
          · rw [h0] at hoc; exact absurd hoc (by simp)
          · rw [h1] at hoc; exact absurd hoc (by simp)
          · rfl
      · rw [dv_char_fail url rl oc r0 r1 r2 h0 h1 h2]
        simp only [fetchAttemptNums_fetch_cons, fetchAttemptNums_warn_cons,
          fetchAttemptNums_nil]
        refine ⟨by decide, by decide, ?_, ?_, ?_, ?_⟩
        · constructor
          · intro h; exact absurd h (by simp)
          · rintro ⟨i, hi, hoc⟩
            rcases (hlt i).1 hi with rfl | rfl | rfl
            · rw [h0] at hoc; exact absurd hoc (by simp)
            · rw [h1] at hoc; exact absurd hoc (by simp)
            · rw [h2] at hoc; exact absurd hoc (by simp)
        · intro _; trivial
        · intro i reason hi hprev hoc
          rcases (hlt i).1 hi with rfl | rfl | rfl
          · rw [h0] at hoc; injection hoc with h; subst h; simp
          · rw [h1] at hoc; injection hoc with h; subst h; simp
          · rw [h2] at hoc; injection hoc with h; subst h; simp
        · intro i hi hprev hoc
          rcases (hlt i).1 hi with rfl | rfl | rfl
          · rw [h0] at hoc; exact absurd hoc (by simp)
          · rw [h1] at hoc; exact absurd hoc (by simp)
          · rw [h2] at hoc; exact absurd hoc (by simp)

/-- C2 witness: with a fetcher failing every attempt, the executor raises
`DownloadError` naming the URL and the retry ceiling. -/
theorem download_video_retry_spec_witness :
    (download_video "https://www.youtube.com/watch?v=a1" none (fun _ => some "boom")).2
      = DLResult.fatal ("Failed to download " ++ "https://www.youtube.com/watch?v=a1"
          ++ " after " ++ toString RETRY_LIMIT ++ " retries.") :=
  (download_video_retry_spec "https://www.youtube.com/watch?v=a1" none
    (fun _ => some "boom")).2.2.2.1 (fun i _ => by simp)

theorem sleepEvts_of_ne {R : Int} (h : ¬ R = 0) :
    sleepEvts (some R) = [Ev.sleepCall R] := by
  simp [sleepEvts, h]

theorem sleep_mem_sleepEvts {rl : Option Int} {R : Int}
    (h : Ev.sleepCall R ∈ sleepEvts rl) : rl = some R ∧ R ≠ 0 := by
  rcases rl with _ | r
  · simp [sleepEvts] at h
  · by_cases hr : r = 0
    · simp [sleepEvts, hr] at h
    · simp [sleepEvts, hr] at h
      subst h
      exact ⟨rfl, hr⟩

/-- C10: with a configured delay `R > 0` and a fetch that eventually
succeeds, the executor sleeps for `R` right after the successful fetch and
before returning success (the sleep is the last event); conversely, every
sleep event implies a set, nonzero delay and a successful result, so no
delay follows a failed attempt or an unset delay; and the command-line
conversion turns a rate limit of `0` into `None` while keeping positive
values. -/
theorem rate_limit_spec (url : String) (oc : Nat → Option String) :
    (∀ R : Int, 0 < R → (download_video url (some R) oc).2 = DLResult.success →
       ∃ pre k, (download_video url (some R) oc).1
         = pre ++ [Ev.fetchCall url k, Ev.sleepCall R])
  ∧ (∀ (rl : Option Int) (R : Int), Ev.sleepCall R ∈ (download_video url rl oc).1 →
       rl = some R ∧ R ≠ 0 ∧ (download_video url rl oc).2 = DLResult.success)
  ∧ cliRateLimit 0 = none
  ∧ (∀ n : Int, 0 < n → cliRateLimit n = some n) := by
  refine ⟨?_, ?_, rfl, ?_⟩
  · intro R hR hsucc
    have hRne : ¬ R = 0 := by omega
    rcases h0 : oc 0 with _ | r0
    · rw [dv_char_s0 url (some R) oc h0, sleepEvts_of_ne hRne]
      exact ⟨[], 1, rfl⟩
    · rcases h1 : oc 1 with _ | r1
      · rw [dv_char_s1 url (some R) oc r0 h0 h1, sleepEvts_of_ne hRne]
        exact ⟨[Ev.fetchCall url 1, Ev.warnLog url 1 r0], 2, rfl⟩
      · rcases h2 : oc 2 with _ | r2
        · rw [dv_char_s2 url (some R) oc r0 r1 h0 h1 h2, sleepEvts_of_ne hRne]
          exact ⟨[Ev.fetchCall url 1, Ev.warnLog url 1 r0, Ev.fetchCall url 2,
            Ev.warnLog url 2 r1], 3, rfl⟩
        · rw [dv_char_fail url (some R) oc r0 r1 r2 h0 h1 h2] at hsucc
          exact absurd hsucc (by simp)
  · intro rl R hmem
    rcases h0 : oc 0 with _ | r0
    · rw [dv_char_s0 url rl oc h0] at hmem ⊢
      simp only [List.mem_cons] at hmem
      rcases hmem with h | h
      · exact absurd h (by simp)
      · obtain ⟨hrl, hne⟩ := sleep_mem_sleepEvts h
        exact ⟨hrl, hne, rfl⟩
    · rcases h1 : oc 1 with _ | r1
      · rw [dv_char_s1 url rl oc r0 h0 h1] at hmem ⊢
        simp only [List.mem_cons] at hmem
        rcases hmem with h | h | h | h
        · exact absurd h (by simp)
        · exact absurd h (by simp)
        · exact absurd h (by simp)
        · obtain ⟨hrl, hne⟩ := sleep_mem_sleepEvts h
          exact ⟨hrl, hne, rfl⟩
      · rcases h2 : oc 2 with _ | r2
        · rw [dv_char_s2 url rl oc r0 r1 h0 h1 h2] at hmem ⊢
          simp only [List.mem_cons] at hmem
          rcases hmem with h | h | h | h | h | h
          · exact absurd h (by simp)
          · exact absurd h (by simp)
          · exact absurd h (by simp)
          · exact absurd h (by simp)
          · exact absurd h (by simp)
          · obtain ⟨hrl, hne⟩ := sleep_mem_sleepEvts h
            exact ⟨hrl, hne, rfl⟩
        · rw [dv_char_fail url rl oc r0 r1 r2 h0 h1 h2] at hmem
          exact absurd hmem (by simp)
  · intro n hn
    simp [cliRateLimit, hn]

/-- C10 witness: with delay 5 and an immediately successful fetch, the
trace ends with the fetch followed by the 5-second sleep. -/
theorem rate_limit_spec_witness :
    ∃ pre k, (download_video "https://www.youtube.com/watch?v=b2" (some 5)
        (fun _ => none)).1
      = pre ++ [Ev.fetchCall "https://www.youtube.com/watch?v=b2" k, Ev.sleepCall 5] :=
  (rate_limit_spec "https://www.youtube.com/watch?v=b2" (fun _ => none)).1 5
    (by norm_num) (by rfl)

end YTArchiver

namespace YTArchiver

/-! ## Theorems about the metadata gate (C4) -/

/-- C4: when the metadata probe of an item fails
(`fetch_video_metadata` returns `None`), `sem_download` records the item
as Skipped with the "metadata fetch failed" log line, never invokes
`download_video` (zero fetch attempts appear in the trace), and does not
record a FatalFailure; the probe failure does not propagate — the whole
branch is the two log events and a normal return. -/
theorem probe_failure_skips (probeOc : String → Option Nat)
    (fetchOc : String → Nat → Option String) (rl : Option Int) (url : String)
    (h : fetch_video_metadata probeOc url = none) :
    (sem_download probeOc fetchOc rl url).2 = ItemOutcome.skipped
  ∧ (sem_download probeOc fetchOc rl url).1
      = [Ev.probeCall url,
         Ev.skipLog ("Skipping download (metadata fetch failed): " ++ url)]
  ∧ (∀ u n, Ev.fetchCall u n ∉ (sem_download probeOc fetchOc rl url).1)
  ∧ (sem_download probeOc fetchOc rl url).2 ≠ ItemOutcome.fatal := by
  unfold sem_download
  rw [h]
  refine ⟨rfl, rfl, ?_, by simp⟩
  intro u n
  simp

/-- C4 witness: the gate theorem applied to a probe oracle that fails on a
concrete URL. -/
theorem probe_failure_skips_witness :
    (sem_download (fun _ => none) (fun _ _ => none) none
        "https://www.youtube.com/watch?v=c3").2 = ItemOutcome.skipped
  ∧ (sem_download (fun _ => none) (fun _ _ => none) none
        "https://www.youtube.com/watch?v=c3").1
      = [Ev.probeCall "https://www.youtube.com/watch?v=c3",
         Ev.skipLog ("Skipping download (metadata fetch failed): "
           ++ "https://www.youtube.com/watch?v=c3")]
  ∧ (∀ u n, Ev.fetchCall u n ∉ (sem_download (fun _ => none) (fun _ _ => none) none
        "https://www.youtube.com/watch?v=c3").1)
  ∧ (sem_download (fun _ => none) (fun _ _ => none) none
        "https://www.youtube.com/watch?v=c3").2 ≠ ItemOutcome.fatal :=
  probe_failure_skips (fun _ => none) (fun _ _ => none) none
    "https://www.youtube.com/watch?v=c3" rfl

end YTArchiver

namespace YTArchiver

/-! ## Theorems about the progress counter (C6) -/

theorem channelLoop_counts (probeOc : String → Option Nat)
    (fetchOc : String → Nat → Option String) (rl : Option Int)
    (vs : List String) (c : Nat) :
    (channelLoop probeOc fetchOc rl vs c).2.2 = List.range' (c + 1) vs.length := by
  induction vs generalizing c with
  | nil => rfl
  | cons v vs ih => simp [channelLoop, ih, List.range']

theorem channelLoop_outcomes_length (probeOc : String → Option Nat)
    (fetchOc : String → Nat → Option String) (rl : Option Int)
    (vs : List String) (c : Nat) :
    (channelLoop probeOc fetchOc rl vs c).2.1.length = vs.length := by
  induction vs generalizing c with
  | nil => rfl
  | cons v vs ih => simp [channelLoop, ih]

theorem dvic_states (probeOc : String → Option Nat)
    (fetchOc : String → Nat → Option String) (videos : List String) (rl : Option Int) :
    (download_videos_in_channel probeOc fetchOc videos rl).2.2
      = (List.range (videos.length + 1)).map (PBar.mk videos.length) := by
  show PBar.mk videos.length 0
      :: (channelLoop probeOc fetchOc rl videos 0).2.2.map (fun c => PBar.mk videos.length c)
    = _
  rw [channelLoop_counts, List.range_eq_range']
  simp [List.range']

/-- C6 (amended): the progress counter is per-channel, not run-wide: each
`download_videos_in_channel` call creates its own bar seeded with that one
channel's item count as `total` and `completed = 0`; within the call,
`completed` is incremented exactly once per item reaching a terminal
outcome (so there are `total` increments, one per recorded outcome), is
monotonically non-decreasing, and never exceeds `total`. -/
theorem progress_counter_per_channel (probeOc : String → Option Nat)
    (fetchOc : String → Nat → Option String) (videos : List String) (rl : Option Int) :
    (download_videos_in_channel probeOc fetchOc videos rl).2.2.head?
        = some (PBar.mk videos.length 0)
  ∧ (∀ p ∈ (download_videos_in_channel probeOc fetchOc videos rl).2.2,
        p.total = videos.length ∧ p.completed ≤ p.total)
  ∧ List.Chain' (fun a b => a.completed ≤ b.completed)
        (download_videos_in_channel probeOc fetchOc videos rl).2.2
  ∧ (download_videos_in_channel probeOc fetchOc videos rl).2.2.length
        = videos.length + 1
  ∧ (download_videos_in_channel probeOc fetchOc videos rl).2.1.length
        = videos.length := by
  rw [dvic_states]
  refine ⟨?_, ?_, ?_, ?_, ?_⟩
  · rw [List.range_eq_range']
    simp [List.range']
  · intro p hp
    rw [List.mem_map] at hp
    obtain ⟨k, hk, rfl⟩ := hp
    exact ⟨rfl, Nat.le_of_lt_succ (List.mem_range.1 hk)⟩
  · rw [List.chain'_map]
    exact ((List.pairwise_lt_range _).imp Nat.le_of_lt).chain'
  · simp
  · exact channelLoop_outcomes_length probeOc fetchOc rl videos 0

/-- C6 counterexample: in a run whose channels list 1 and 2 items (3 items
in total), the bar created for the first channel is seeded with total 1
and the one for the second with total 2 — the counter's total is the
single channel's item count, not the run-wide sum of item counts. -/
theorem progress_counter_counterexample :
    (download_videos_in_channel (fun _ => none) (fun _ _ => none)
        ["https://www.youtube.com/watch?v=u1"] none).2.2.head?
      = some (PBar.mk 1 0)
  ∧ (download_videos_in_channel (fun _ => none) (fun _ _ => none)
        ["https://www.youtube.com/watch?v=u2", "https://www.youtube.com/watch?v=u3"]
        none).2.2.head?
      = some (PBar.mk 2 0)
  ∧ (["https://www.youtube.com/watch?v=u1"] : List String).length
      + (["https://www.youtube.com/watch?v=u2",
          "https://www.youtube.com/watch?v=u3"] : List String).length = 3
  ∧ (1 : Nat) ≠ 3 ∧ (2 : Nat) ≠ 3 :=
  ⟨rfl, rfl, rfl, by decide, by decide⟩

/-- C6 witness: the amended theorem applied to a concrete two-item
channel. -/
theorem progress_counter_per_channel_witness :
    (download_videos_in_channel (fun _ => some 0) (fun _ _ => none)
        ["https://www.youtube.com/watch?v=w1", "https://www.youtube.com/watch?v=w2"]
        none).2.2.head?
      = some (PBar.mk 2 0)
  ∧ (∀ p ∈ (download_videos_in_channel (fun _ => some 0) (fun _ _ => none)
        ["https://www.youtube.com/watch?v=w1", "https://www.youtube.com/watch?v=w2"]
        none).2.2, p.total = 2 ∧ p.completed ≤ p.total)
  ∧ List.Chain' (fun a b => a.completed ≤ b.completed)
      (download_videos_in_channel (fun _ => some 0) (fun _ _ => none)
        ["https://www.youtube.com/watch?v=w1", "https://www.youtube.com/watch?v=w2"]
        none).2.2
  ∧ (download_videos_in_channel (fun _ => some 0) (fun _ _ => none)
        ["https://www.youtube.com/watch?v=w1", "https://www.youtube.com/watch?v=w2"]
        none).2.2.length = 3
  ∧ (download_videos_in_channel (fun _ => some 0) (fun _ _ => none)
        ["https://www.youtube.com/watch?v=w1", "https://www.youtube.com/watch?v=w2"]
        none).2.1.length = 2 :=
  progress_counter_per_channel (fun _ => some 0) (fun _ _ => none)
    ["https://www.youtube.com/watch?v=w1", "https://www.youtube.com/watch?v=w2"] none

end YTArchiver

namespace YTArchiver

/-! ## Theorems about the wired entry path (C3, C5) -/

theorem no_probe_sleepEvts (rl : Option Int) (u : String) :
    Ev.probeCall u ∉ sleepEvts rl := by
  rcases rl with _ | r
  · simp [sleepEvts]
  · by_cases hr : r = 0 <;> simp [sleepEvts, hr]

theorem no_probe_download_video (url : String) (rl : Option Int)
    (oc : Nat → Option String) (u : String) :
    Ev.probeCall u ∉ (download_video url rl oc).1 := by
  rcases h0 : oc 0 with _ | r0
  · rw [dv_char_s0 url rl oc h0]
    simp [no_probe_sleepEvts rl u]
  · rcases h1 : oc 1 with _ | r1
    · rw [dv_char_s1 url rl oc r0 h0 h1]
      simp [no_probe_sleepEvts rl u]
    · rcases h2 : oc 2 with _ | r2
      · rw [dv_char_s2 url rl oc r0 r1 h0 h1 h2]
        simp [no_probe_sleepEvts rl u]
      · rw [dv_char_fail url rl oc r0 r1 r2 h0 h1 h2]
        simp

theorem fetch1_mem_download_video (url : String) (rl : Option Int)
    (oc : Nat → Option String) :
    Ev.fetchCall url 1 ∈ (download_video url rl oc).1 := by
  rcases h0 : oc 0 with _ | r0
  · rw [dv_char_s0 url rl oc h0]; simp
  · rcases h1 : oc 1 with _ | r1
    · rw [dv_char_s1 url rl oc r0 h0 h1]; simp
    · rcases h2 : oc 2 with _ | r2
      · rw [dv_char_s2 url rl oc r0 r1 h0 h1 h2]; simp
      · rw [dv_char_fail url rl oc r0 r1 r2 h0 h1 h2]; simp

theorem no_probe_dvwr (fetchOc : String → Nat → Option String) (rl : Option Int)
    (v u : String) :
    Ev.probeCall u ∉ (download_video_with_retries fetchOc rl v).1 := by
  unfold download_video_with_retries
  rcases hres : (download_video v rl (fetchOc v)).2 with _ | msg <;>
    simp [hres, List.mem_append, no_probe_download_video v rl (fetchOc v) u]

theorem fetch1_mem_dvwr (fetchOc : String → Nat → Option String) (rl : Option Int)
    (v : String) :
    Ev.fetchCall v 1 ∈ (download_video_with_retries fetchOc rl v).1 := by
  unfold download_video_with_retries
  rcases hres : (download_video v rl (fetchOc v)).2 with _ | msg <;>
    simp [hres, List.mem_append, fetch1_mem_download_video v rl (fetchOc v)]

theorem dvwr_not_skipped (fetchOc : String → Nat → Option String) (rl : Option Int)
    (v : String) :
    (download_video_with_retries fetchOc rl v).2 ≠ ItemOutcome.skipped := by
  unfold download_video_with_retries
  rcases hres : (download_video v rl (fetchOc v)).2 with _ | msg <;> simp [hres]

theorem runItems_no_probe (fetchOc : String → Nat → Option String) (rl : Option Int)
    (vs : List String) (u : String) :
    Ev.probeCall u ∉ (runItems fetchOc rl vs).1 := by
  induction vs with
  | nil => simp [runItems]
  | cons v vs ih =>
    simp only [runItems, List.mem_append]
    rintro (h | h)
    · exact no_probe_dvwr fetchOc rl v u h
    · exact ih h

theorem runItems_fetch1 (fetchOc : String → Nat → Option String) (rl : Option Int)
    (vs : List String) (v : String) (hv : v ∈ vs) :
    Ev.fetchCall v 1 ∈ (runItems fetchOc rl vs).1 := by
  induction vs with
  | nil => cases hv
  | cons w ws ih =>
    rcases List.mem_cons.1 hv with rfl | h
    · exact List.mem_append.2 (Or.inl (fetch1_mem_dvwr fetchOc rl v))
    · exact List.mem_append.2 (Or.inr (ih h))

theorem runItems_not_skipped (fetchOc : String → Nat → Option String) (rl : Option Int)
    (vs : List String) (o : ItemOutcome) (ho : o ∈ (runItems fetchOc rl vs).2) :
    o ≠ ItemOutcome.skipped := by
  induction vs with
  | nil => cases ho
  | cons v ws ih =>
    rcases List.mem_cons.1 ho with rfl | h
    · exact dvwr_not_skipped fetchOc rl v
    · exact ih h

theorem process_channel_ok (listOc : String → Except String (List (Option String)))
    (fetchOc : String → Nat → Option String) (rl : Option Int) (cfg : String)
    (r : List Ev × List ItemOutcome)
    (h : process_channel listOc fetchOc rl cfg = Except.ok r) :
    ∃ churl urls, get_channel_url cfg = some churl
      ∧ list_videos_in_channel listOc churl = Except.ok urls
      ∧ r = runItems fetchOc rl urls := by
  unfold process_channel at h
  rcases hg : get_channel_url cfg with _ | churl
  · simp only [hg] at h
    cases h
  · simp only [hg] at h
    rcases hl : list_videos_in_channel listOc churl with e | urls
    · simp only [hl] at h
      cases h
    · simp only [hl] at h
      cases h
      exact ⟨churl, urls, rfl, hl, rfl⟩

/-- C5: on the wired entry path (`main_async` → `process_channel` →
`download_video_with_retries`), no metadata probe ever happens — the run
trace contains no `fetch_video_metadata` call — every listed item URL is
handed directly to the retry executor (its first fetch attempt appears in
the trace regardless of whether any probe could succeed for it), and no
item is ever recorded as Skipped; the probe-and-skip gate lives only in
`download_videos_in_channel`, which this path never invokes. -/
theorem wired_path_no_probe (listOc : String → Except String (List (Option String)))
    (fetchOc : String → Nat → Option String) (rl : Option Int)
    (channels : List String) (evs : List Ev) (outs : List ItemOutcome)
    (h : main_async listOc fetchOc channels rl = Except.ok (evs, outs)) :
    (∀ u, Ev.probeCall u ∉ evs)
  ∧ (∀ cfg ∈ channels, ∀ churl urls, get_channel_url cfg = some churl →
      list_videos_in_channel listOc churl = Except.ok urls →
      ∀ url ∈ urls, Ev.fetchCall url 1 ∈ evs)
  ∧ (∀ o ∈ outs, o ≠ ItemOutcome.skipped) := by
  induction channels generalizing evs outs with
  | nil =>
    unfold main_async runChannels at h
    injection h with h
    injection h with h1 h2
    subst h1; subst h2
    refine ⟨?_, ?_, ?_⟩
    · intro u; simp
    · intro cfg hcfg; exact absurd hcfg (List.not_mem_nil cfg)
    · intro o ho; exact absurd ho (List.not_mem_nil o)
  | cons c cs ih =>
    unfold main_async runChannels at h
    rcases hpc : process_channel listOc fetchOc rl c with e | r
    · simp only [hpc] at h
      cases h
    · simp only [hpc] at h
      rcases hrec : runChannels listOc fetchOc rl cs with e | rest
      · simp only [hrec] at h
        cases h
      · simp only [hrec] at h
        injection h with h
        injection h with h1 h2
        subst h1; subst h2
        obtain ⟨hnp, hf1, hns⟩ := ih rest.1 rest.2
          (by
            show runChannels listOc fetchOc rl cs = Except.ok (rest.1, rest.2)
            rw [hrec])
        obtain ⟨churl, urls, hg, hl, hr⟩ :=
          process_channel_ok listOc fetchOc rl c r hpc
        refine ⟨?_, ?_, ?_⟩
        · intro u
          rw [List.mem_append]
          rintro (hm | hm)
          · rw [hr] at hm
            exact runItems_no_probe fetchOc rl urls u hm
          · exact hnp u hm
        · intro cfg hcfg churl2 urls2 hg2 hl2 url hurl
          rcases List.mem_cons.1 hcfg with rfl | hmem
          · rw [hg] at hg2
            injection hg2 with hg2
            subst hg2
            rw [hl] at hl2
            injection hl2 with hl2
            subst hl2
            refine List.mem_append.2 (Or.inl ?_)
            rw [hr]
            exact runItems_fetch1 fetchOc rl urls url hurl
          · exact List.mem_append.2 (Or.inr (hf1 cfg hmem churl2 urls2 hg2 hl2 url hurl))
        · intro o ho
          rcases List.mem_append.1 ho with hm | hm
          · rw [hr] at hm
            exact runItems_not_skipped fetchOc rl urls o hm
          · exact hns o hm

/-- C5 witness: a one-channel run whose listing yields one item; the
resulting trace has no probe and starts with the item's first fetch. -/
theorem wired_path_no_probe_witness :
    (∀ u, Ev.probeCall u ∉ [Ev.fetchCall "https://www.youtube.com/watch?v=abc" 1])
  ∧ (∀ cfg ∈ ["UC1"], ∀ churl urls, get_channel_url cfg = some churl →
      list_videos_in_channel (fun _ => Except.ok [some "abc"]) churl = Except.ok urls →
      ∀ url ∈ urls, Ev.fetchCall url 1 ∈ [Ev.fetchCall "https://www.youtube.com/watch?v=abc" 1])
  ∧ (∀ o ∈ [ItemOutcome.success], o ≠ ItemOutcome.skipped) :=
  wired_path_no_probe (fun _ => Except.ok [some "abc"]) (fun _ _ => none) none
    ["UC1"] [Ev.fetchCall "https://www.youtube.com/watch?v=abc" 1]
    [ItemOutcome.success] rfl

/-- C3 counterexample: with a lister that raises for channel A while
channel B would list fine, the run aborts with the lister's exception —
it does not continue with channel A contributing zero items, so an
exception other than `ConfigurationError` aborts the entire run. -/
theorem listing_failure_aborts_run :
    main_async
      (fun u => if u = "https://www.youtube.com/c/A/videos"
        then Except.error "ExtractorError: unable to extract channel"
        else Except.ok [some "ok1"])
      (fun _ _ => none)
      ["https://www.youtube.com/c/A", "https://www.youtube.com/c/B"] none
      = Except.error "ExtractorError: unable to extract channel" := rfl

/-- C3 (amended): per-item failures are contained — whenever every channel
normalizes and its listing succeeds, the run completes normally for every
fetch oracle (exhausted-retry failures are caught per item inside
`download_video_with_retries`); but a listing failure is not contained: it
propagates out of `process_channel` and aborts the whole run. -/
theorem run_completes_when_listings_succeed
    (listOc : String → Except String (List (Option String)))
    (fetchOc : String → Nat → Option String) (rl : Option Int)
    (channels : List String)
    (h : ∀ cfg ∈ channels, ∃ churl urls, get_channel_url cfg = some churl
       ∧ list_videos_in_channel listOc churl = Except.ok urls) :
    ∃ evs outs, main_async listOc fetchOc channels rl = Except.ok (evs, outs) := by
  induction channels with
  | nil => exact ⟨[], [], rfl⟩
  | cons c cs ih =>
    obtain ⟨churl, urls, hg, hl⟩ := h c (List.mem_cons_self c cs)
    obtain ⟨evs, outs, hrec⟩ := ih (fun cfg hcfg => h cfg (List.mem_cons_of_mem c hcfg))
    have hpc : process_channel listOc fetchOc rl c
        = Except.ok (runItems fetchOc rl urls) := by
      unfold process_channel
      simp only [hg, hl]
    refine ⟨(runItems fetchOc rl urls).1 ++ evs, (runItems fetchOc rl urls).2 ++ outs, ?_⟩
    unfold main_async at hrec ⊢
    unfold runChannels
    simp only [hpc, hrec]

/-- C3 witness: a run whose only channel lists one item that then fails
all three fetch attempts still completes normally. -/
theorem run_completes_when_listings_succeed_witness :
    ∃ evs outs,
      main_async (fun _ => Except.ok [some "x1"]) (fun _ _ => some "boom")
        ["UC1"] none = Except.ok (evs, outs) :=
  run_completes_when_listings_succeed (fun _ => Except.ok [some "x1"])
    (fun _ _ => some "boom") none ["UC1"]
    (fun cfg hcfg => by
      rcases List.mem_cons.1 hcfg with rfl | hmem
      · exact ⟨"https://www.youtube.com/channel/UC1/videos",
          ["https://www.youtube.com/watch?v=x1"], rfl, rfl⟩
      · cases hmem)

end YTArchiver

namespace YTArchiver

/-! ## Theorem about the admission gate of the wired path (C1) -/

/-- C1: the claim fails on the wired code.  `process_channel` holds the
semaphore only around `asyncio.create_task` and releases it before the
created task runs (the task body never touches the semaphore), so the gate
does not bound the number of simultaneously in-flight item units: with
`maxConcurrent = 1` and one channel listing 2 items, the schedule
submit-submit-start-start reaches a state with both items' fetch sequences
in flight at once, exceeding the cap. -/
theorem semaphore_does_not_bound_concurrency :
    ∃ s : SchedState, SchedReach (initSched 1 2) s
      ∧ s.inFlight = 2 ∧ 1 < s.inFlight := by
  refine ⟨⟨1, 0, 0, 2⟩, ?_, rfl, by norm_num⟩
  have h1 : PCStep (initSched 1 2) ⟨1, 1, 1, 0⟩ :=
    PCStep.submit (initSched 1 2) (by decide) (by decide)
  have h2 : PCStep (⟨1, 1, 1, 0⟩ : SchedState) ⟨1, 2, 0, 0⟩ :=
    PCStep.submit _ (by decide) (by decide)
  have h3 : PCStep (⟨1, 2, 0, 0⟩ : SchedState) ⟨1, 1, 0, 1⟩ :=
    PCStep.start _ (by decide)
  have h4 : PCStep (⟨1, 1, 0, 1⟩ : SchedState) ⟨1, 0, 0, 2⟩ :=
    PCStep.start _ (by decide)
  exact Relation.ReflTransGen.head h1 (Relation.ReflTransGen.head h2
    (Relation.ReflTransGen.head h3 (Relation.ReflTransGen.head h4
      Relation.ReflTransGen.refl)))

end YTArchiver
